import Mathlib

/-!
Verification development for the ISO-11783 Virtual Terminal object-pool
parser and object model (isobus_virtual_terminal_objects.cpp / .hpp).

The byte buffer is modelled as a `List Nat` of byte values; the C++
iterator position is modelled by the remaining suffix of that list
(dereferencing the current byte = taking the head, `it++` = the tail).
Dereferencing an iterator at or past `end()` is undefined behaviour in the
C++; every such dereference is modelled as a distinguished out-of-bounds
outcome (`none` for primitive reads, `.oob` for whole-object parses).
`std::map` containers are modelled as key-sorted association lists,
`std::vector` as plain lists.  Observer callbacks are modelled by counting
how many times `call_object_changed_callbacks` runs, and the logger by a
list of emitted diagnostics.
-/

/-- Model of the template `convert_bytes_to<T>` for the 2-byte
instantiations (`objectID_t`, `std::uint16_t`, `std::int16_t`), from
isobus_virtual_terminal_objects.cpp lines 19-35.  The first byte is read
by `*it++` with no bounds check (out of bounds when the buffer is
exhausted, modelled as `none`); for the second byte the code checks
`it == end` and, when the end is reached, logs an error and returns the
partial value built so far while leaving the cursor at end-of-buffer.
Signed and unsigned 2-byte reads produce the same 16-bit pattern, kept
here as a raw `Nat`. -/
def convert_bytes_to : List Nat → Option (Nat × List Nat)
  | [] => none
  | [b0] => some (b0, [])
  | b0 :: b1 :: rest => some (b0 + 256 * b1, rest)

/-- Model of a single `*it++` byte read (also the `std::uint8_t`
instantiation of `convert_bytes_to`, whose loop body never runs): an
unchecked dereference of the current byte, out of bounds (`none`) when
the buffer is exhausted. -/
def read_u8 : List Nat → Option (Nat × List Nat)
  | [] => none
  | b :: rest => some (b, rest)

/-- Lookup in a key-sorted association list, modelling `std::map::find`
(and `std::map::count`). -/
def mapFind {α : Type} : List (Nat × α) → Nat → Option α
  | [], _ => none
  | (k', v) :: rest, k => if k = k' then some v else mapFind rest k

/-- Model of `std::map::emplace` on a key-sorted association list: insert
keyed at `k` if no entry with key `k` exists, otherwise leave the map
unchanged (emplace never overwrites). -/
def mapEmplace {α : Type} : List (Nat × α) → Nat → α → List (Nat × α)
  | [], k, v => [(k, v)]
  | (k', v') :: rest, k, v =>
    if k < k' then (k, v) :: (k', v') :: rest
    else if k = k' then (k', v') :: rest
    else (k', v') :: mapEmplace rest k v

/-- Model of `std::map::operator[]` followed by assignment (and of
assigning through a `find` iterator): insert or overwrite the entry for
key `k` in a key-sorted association list. -/
def mapAssign {α : Type} : List (Nat × α) → Nat → α → List (Nat × α)
  | [], k, v => [(k, v)]
  | (k', v') :: rest, k, v =>
    if k < k' then (k, v) :: (k', v') :: rest
    else if k = k' then (k, v) :: rest
    else (k', v') :: mapAssign rest k v

/-- Diagnostics emitted through `CANStackLogger::CAN_stack_log` by the
mutation entry points, one constructor per distinct error message. -/
inductive Diag : Type
  | childNotFound
  | attributeNotFound
  | invalidAttributeType
  | immutableObject
deriving Repr, DecidableEq

/-- Result of a variant `parse` routine: `oob` when the C++ would
dereference the iterator out of bounds (undefined behaviour), `fail` when
it returns `false`, `ok` with the decoded object and the remaining
suffix of the buffer when it returns `true`. -/
inductive PResult (α : Type) : Type
  | oob : PResult α
  | fail : PResult α
  | ok (obj : α) (rem : List Nat) : PResult α
deriving Repr, DecidableEq

/-- A WorkingSetObject's decoded state (isobus_virtual_terminal_objects.hpp
lines 137-189).  `childObjects` models the `VTChildObjects` member, a
`std::map` from child object ID to its `(x, y)` coordinate pair;
`childLanguages` keeps each consumed 2-character language entry as the
pair of raw bytes. -/
structure WorkingSetObject : Type where
  objectID : Nat
  backgroundColour : Nat
  selectable : Bool
  activeMask : Nat
  childObjects : List (Nat × Nat × Nat)
  childMacros : List Nat
  childLanguages : List (Nat × Nat)
deriving Repr, DecidableEq

/-- A DataMaskObject's decoded state (hpp lines 191-238). -/
structure DataMaskObject : Type where
  objectID : Nat
  backgroundColour : Nat
  softKeyMask : Nat
  childObjects : List (Nat × Nat × Nat)
  childMacros : List Nat
deriving Repr, DecidableEq

/-- A ContainerObject's mutable state (hpp lines 280-324). -/
structure ContainerObject : Type where
  objectID : Nat
  width : Nat
  height : Nat
  hidden : Bool
  childObjects : List (Nat × Nat × Nat)
  childMacros : List Nat
deriving Repr, DecidableEq

/-- A SoftKeyMaskObject's decoded state (hpp lines 326-351); its child
list is a flat `std::vector` of object IDs. -/
structure SoftKeyMaskObject : Type where
  objectID : Nat
  backgroundColour : Nat
  childObjects : List Nat
  childMacros : List Nat
deriving Repr, DecidableEq

/-- Child-object loop shared by the WorkingSet, DataMask, AlarmMask and
Container decoders: `n` iterations each read a 2-byte object ID and the
2-byte x and y locations through `convert_bytes_to`, then `emplace` the
entry into the child map. -/
def readChildObjects : Nat → List Nat → List (Nat × Nat × Nat) →
    Option (List (Nat × Nat × Nat) × List Nat)
  | 0, rem, acc => some (acc, rem)
  | n + 1, rem, acc =>
    match convert_bytes_to rem with
    | none => none
    | some (kid, r1) =>
      match convert_bytes_to r1 with
      | none => none
      | some (x, r2) =>
        match convert_bytes_to r2 with
        | none => none
        | some (y, r3) => readChildObjects n r3 (mapEmplace acc kid (x, y))

/-- Macro loop shared by the decoders (also the SoftKeyMask flat child
loop): `n` iterations each read one 2-byte value through
`convert_bytes_to` and `push_back` it. -/
def readU16List : Nat → List Nat → List Nat → Option (List Nat × List Nat)
  | 0, rem, acc => some (acc, rem)
  | n + 1, rem, acc =>
    match convert_bytes_to rem with
    | none => none
    | some (v, r1) => readU16List n r1 (acc ++ [v])

/-- Language loop of the WorkingSet decoder: `n` iterations each read two
raw characters with unchecked `*it++` dereferences and append the pair. -/
def readLanguages : Nat → List Nat → List (Nat × Nat) →
    Option (List (Nat × Nat) × List Nat)
  | 0, rem, acc => some (acc, rem)
  | n + 1, rem, acc =>
    match rem with
    | c1 :: c2 :: rest => readLanguages n rest (acc ++ [(c1, c2)])
    | _ => none

/-- Fixed-field prefix of `WorkingSetObject::parse` (cpp lines 135-144):
object ID via `convert_bytes_to`, a plain `it++` skipping the type byte
(no dereference), background colour, selectable flag, active mask,
then the three count bytes.  Returns the seven header values and the
remaining buffer, or `none` on an out-of-bounds dereference. -/
def wsReadHeader (rem : List Nat) :
    Option (Nat × Nat × Nat × Nat × Nat × Nat × Nat × List Nat) := do
  let (oid, r1) ← convert_bytes_to rem
  let r2 := r1.tail
  let (bg, r3) ← read_u8 r2
  let (sel, r4) ← read_u8 r3
  let (mask, r5) ← convert_bytes_to r4
  let (nObj, r6) ← read_u8 r5
  let (nMac, r7) ← read_u8 r6
  let (nLang, r8) ← read_u8 r7
  some (oid, bg, sel, mask, nObj, nMac, nLang, r8)

/-- Model of `WorkingSetObject::parse` (cpp lines 135-173): header fields,
the `bytes.end() - it < numObjects * 6 + numMacros * 2 + numLanguages * 2`
size check (returning `false` when it trips), then the child, macro and
language loops. -/
def WorkingSetObject.parse (rem : List Nat) : PResult WorkingSetObject :=
  match wsReadHeader rem with
  | none => .oob
  | some (oid, bg, sel, mask, nObj, nMac, nLang, r8) =>
    if r8.length < nObj * 6 + nMac * 2 + nLang * 2 then .fail
    else
      match readChildObjects nObj r8 [] with
      | none => .oob
      | some (kids, r9) =>
        match readU16List nMac r9 [] with
        | none => .oob
        | some (macs, r10) =>
          match readLanguages nLang r10 [] with
          | none => .oob
          | some (langs, r11) =>
            .ok { objectID := oid, backgroundColour := bg,
                  selectable := sel != 0, activeMask := mask,
                  childObjects := kids, childMacros := macs,
                  childLanguages := langs } r11

/-- Fixed-field prefix of `DataMaskObject::parse` (cpp lines 264-272):
object ID, `it++` type skip, background colour, soft key mask, and the
two count bytes. -/
def dmReadHeader (rem : List Nat) :
    Option (Nat × Nat × Nat × Nat × Nat × List Nat) := do
  let (oid, r1) ← convert_bytes_to rem
  let r2 := r1.tail
  let (bg, r3) ← read_u8 r2
  let (skm, r4) ← convert_bytes_to r3
  let (nObj, r5) ← read_u8 r4
  let (nMac, r6) ← read_u8 r5
  some (oid, bg, skm, nObj, nMac, r6)

/-- Model of `DataMaskObject::parse` (cpp lines 264-297). -/
def DataMaskObject.parse (rem : List Nat) : PResult DataMaskObject :=
  match dmReadHeader rem with
  | none => .oob
  | some (oid, bg, skm, nObj, nMac, r6) =>
    if r6.length < nObj * 6 + nMac * 2 then .fail
    else
      match readChildObjects nObj r6 [] with
      | none => .oob
      | some (kids, r7) =>
        match readU16List nMac r7 [] with
        | none => .oob
        | some (macs, r8) =>
          .ok { objectID := oid, backgroundColour := bg, softKeyMask := skm,
                childObjects := kids, childMacros := macs } r8

/-- Result of `SoftKeyMaskObject::parse`: `oob` on an out-of-bounds
dereference, otherwise `done` with the boolean the function returns, the
object state it assigned, and the remaining buffer. -/
inductive SkmResult : Type
  | oob : SkmResult
  | done (success : Bool) (obj : SoftKeyMaskObject) (rem : List Nat) : SkmResult
deriving Repr, DecidableEq

/-- Model of `SoftKeyMaskObject::parse` (cpp lines 568-591): object ID,
a `*it++` type skip (this one dereferences), background colour, the two
count bytes via the `std::uint8_t` instantiation of `convert_bytes_to`,
the `numObjects * sizeof(objectID_t) + numMacros * sizeof(objectID_t)`
size check, the flat child and macro loops — and then `return false` even
on a fully successful decode (cpp line 590). -/
def SoftKeyMaskObject.parse (rem : List Nat) : SkmResult :=
  match convert_bytes_to rem with
  | none => .oob
  | some (oid, r1) =>
    match read_u8 r1 with
    | none => .oob
    | some (_, r2) =>
      match read_u8 r2 with
      | none => .oob
      | some (bg, r3) =>
        match read_u8 r3 with
        | none => .oob
        | some (nObj, r4) =>
          match read_u8 r4 with
          | none => .oob
          | some (nMac, r5) =>
            if r5.length < nObj * 2 + nMac * 2 then
              .done false { objectID := oid, backgroundColour := bg,
                            childObjects := [], childMacros := [] } r5
            else
              match readU16List nObj r5 [] with
              | none => .oob
              | some (kids, r6) =>
                match readU16List nMac r6 [] with
                | none => .oob
                | some (macs, r7) =>
                  .done false { objectID := oid, backgroundColour := bg,
                                childObjects := kids, childMacros := macs } r7

theorem convert_bytes_to_length {rem r : List Nat} {v : Nat}
    (h : convert_bytes_to rem = some (v, r)) : r.length < rem.length := by
  match rem with
  | [] => simp [convert_bytes_to] at h
  | [b0] =>
    simp [convert_bytes_to] at h
    obtain ⟨-, h2⟩ := h
    simp [← h2]
  | b0 :: b1 :: t =>
    simp [convert_bytes_to] at h
    obtain ⟨-, h2⟩ := h
    simp [← h2]
    omega

theorem read_u8_length {rem r : List Nat} {v : Nat}
    (h : read_u8 rem = some (v, r)) : r.length < rem.length := by
  match rem with
  | [] => simp [read_u8] at h
  | b :: t =>
    simp [read_u8] at h
    obtain ⟨-, h2⟩ := h
    simp [← h2]

theorem readChildObjects_length {n : Nat} {rem r : List Nat}
    {acc ks : List (Nat × Nat × Nat)}
    (h : readChildObjects n rem acc = some (ks, r)) : r.length ≤ rem.length := by
  induction n generalizing rem acc with
  | zero =>
    simp [readChildObjects] at h
    obtain ⟨-, h2⟩ := h
    simp [h2]
  | succ n ih =>
    unfold readChildObjects at h
    split at h
    · exact Option.noConfusion h
    next kid r1 heq1 =>
      split at h
      · exact Option.noConfusion h
      next x r2 heq2 =>
        split at h
        · exact Option.noConfusion h
        next y r3 heq3 =>
          have h1 := convert_bytes_to_length heq1
          have h2 := convert_bytes_to_length heq2
          have h3 := convert_bytes_to_length heq3
          have h4 := ih h
          omega

theorem readU16List_length {n : Nat} {rem r : List Nat} {acc vs : List Nat}
    (h : readU16List n rem acc = some (vs, r)) : r.length ≤ rem.length := by
  induction n generalizing rem acc with
  | zero =>
    simp [readU16List] at h
    obtain ⟨-, h2⟩ := h
    simp [h2]
  | succ n ih =>
    unfold readU16List at h
    split at h
    · exact Option.noConfusion h
    next v r1 heq1 =>
      have h1 := convert_bytes_to_length heq1
      have h2 := ih h
      omega

theorem readLanguages_length {n : Nat} {rem r : List Nat}
    {acc ls : List (Nat × Nat)}
    (h : readLanguages n rem acc = some (ls, r)) : r.length ≤ rem.length := by
  induction n generalizing rem acc with
  | zero =>
    simp [readLanguages] at h
    obtain ⟨-, h2⟩ := h
    simp [h2]
  | succ n ih =>
    unfold readLanguages at h
    split at h
    next c1 c2 rest =>
      have h2 := ih h
      simp at h2 ⊢
      omega
    · exact Option.noConfusion h

theorem wsReadHeader_length {rem r8 : List Nat}
    {oid bg sel mask nObj nMac nLang : Nat}
    (h : wsReadHeader rem = some (oid, bg, sel, mask, nObj, nMac, nLang, r8)) :
    r8.length < rem.length := by
  simp only [wsReadHeader, bind, Option.bind_eq_some] at h
  obtain ⟨⟨oid', r1⟩, h1, h⟩ := h
  obtain ⟨⟨bg', r3⟩, h3, h⟩ := h
  obtain ⟨⟨sel', r4⟩, h4, h⟩ := h
  obtain ⟨⟨mask', r5⟩, h5, h⟩ := h
  obtain ⟨⟨nObj', r6⟩, h6, h⟩ := h
  obtain ⟨⟨nMac', r7⟩, h7, h⟩ := h
  obtain ⟨⟨nLang', r8'⟩, h8, h⟩ := h
  simp only [Option.some_inj, Prod.mk.injEq] at h
  obtain ⟨-, -, -, -, -, -, -, hr⟩ := h
  have l1 := convert_bytes_to_length h1
  have lt : r1.tail.length ≤ r1.length := by
    simp [List.length_tail]
  have l3 := read_u8_length h3
  have l4 := read_u8_length h4
  have l5 := convert_bytes_to_length h5
  have l6 := read_u8_length h6
  have l7 := read_u8_length h7
  have l8 := read_u8_length h8
  subst hr
  dsimp only at *
  omega

theorem dmReadHeader_length {rem r6 : List Nat} {oid bg skm nObj nMac : Nat}
    (h : dmReadHeader rem = some (oid, bg, skm, nObj, nMac, r6)) :
    r6.length < rem.length := by
  simp only [dmReadHeader, bind, Option.bind_eq_some] at h
  obtain ⟨⟨oid', r1⟩, h1, h⟩ := h
  obtain ⟨⟨bg', r3⟩, h3, h⟩ := h
  obtain ⟨⟨skm', r4⟩, h4, h⟩ := h
  obtain ⟨⟨nObj', r5⟩, h5, h⟩ := h
  obtain ⟨⟨nMac', r6'⟩, h6, h⟩ := h
  simp only [Option.some_inj, Prod.mk.injEq] at h
  obtain ⟨-, -, -, -, -, hr⟩ := h
  have l1 := convert_bytes_to_length h1
  have lt : r1.tail.length ≤ r1.length := by
    simp [List.length_tail]
  have l3 := read_u8_length h3
  have l4 := convert_bytes_to_length h4
  have l5 := read_u8_length h5
  have l6 := read_u8_length h6
  subst hr
  dsimp only at *
  omega

theorem ws_parse_ok_length {rem rem' : List Nat}
    {w : WorkingSetObject}
    (h : WorkingSetObject.parse rem = PResult.ok w rem') :
    rem'.length < rem.length := by
  unfold WorkingSetObject.parse at h
  split at h
  · exact PResult.noConfusion h
  next oid bg sel mask nObj nMac nLang r8 hhd =>
    split at h
    · exact PResult.noConfusion h
    next =>
      split at h
      · exact PResult.noConfusion h
      next kids r9 h9 =>
        split at h
        · exact PResult.noConfusion h
        next macs r10 h10 =>
          split at h
          · exact PResult.noConfusion h
          next langs r11 h11 =>
            have e := (PResult.ok.injEq _ _ _ _).mp h
            obtain ⟨-, hr⟩ := e
            have lh := wsReadHeader_length hhd
            have l9 := readChildObjects_length h9
            have l10 := readU16List_length h10
            have l11 := readLanguages_length h11
            subst hr
            omega

theorem dm_parse_ok_length {rem rem' : List Nat}
    {d : DataMaskObject}
    (h : DataMaskObject.parse rem = PResult.ok d rem') :
    rem'.length < rem.length := by
  unfold DataMaskObject.parse at h
  split at h
  · exact PResult.noConfusion h
  next oid bg skm nObj nMac r6 hhd =>
    split at h
    · exact PResult.noConfusion h
    next =>
      split at h
      · exact PResult.noConfusion h
      next kids r7 h7 =>
        split at h
        · exact PResult.noConfusion h
        next macs r8 h8 =>
          have e := (PResult.ok.injEq _ _ _ _).mp h
          obtain ⟨-, hr⟩ := e
          have lh := dmReadHeader_length hhd
          have l7 := readChildObjects_length h7
          have l8 := readU16List_length h8
          subst hr
          omega

/-- The polymorphic objects an `ObjectPool` can hold (the parse loop only
constructs WorkingSet and DataMask objects; every other type byte hits the
`default` branch and fails). -/
inductive PoolObject : Type
  | ws (w : WorkingSetObject)
  | dm (d : DataMaskObject)
deriving Repr, DecidableEq

/-- An object pool: the `objects` registry (a `std::map` from object ID to
the stored object) and the version hash, `none` until a parse succeeds. -/
structure ObjectPool : Type where
  objects : List (Nat × PoolObject)
  versionHash : Option Nat
deriving Repr, DecidableEq

/-- Intermediate result of the `ObjectPool::parse` while-loop: an
out-of-bounds `iterator[2]` peek or sub-parse, a `return false` with the
registry as mutated so far, or loop exit with the final registry. -/
inductive LoopResult : Type
  | oob : LoopResult
  | fail (objects : List (Nat × PoolObject)) : LoopResult
  | ok (objects : List (Nat × PoolObject)) : LoopResult
deriving Repr, DecidableEq

/-- Result of `ObjectPool::parse`: `done` carries the returned boolean and
the pool state (the member registry is mutated in place, so it keeps all
objects inserted before a failure). -/
inductive PoolParseResult : Type
  | oob : PoolParseResult
  | done (success : Bool) (pool : ObjectPool) : PoolParseResult
deriving Repr, DecidableEq

/-- The while-loop of `ObjectPool::parse` (cpp lines 595-624): while the
iterator has not reached the end, peek the type byte at `iterator[2]`
(an unchecked random access), dispatch WorkingSet (type 0) or DataMask
(type 1) — storing the decoded object with `objects[id] = ...`, an
insert-or-overwrite — and fail on any other type byte. -/
def ObjectPool.parseLoop (rem : List Nat) (objs : List (Nat × PoolObject)) :
    LoopResult :=
  if rem.isEmpty then .ok objs
  else
    match rem[2]? with
    | none => .oob
    | some ty =>
      if ty = 0 then
        match hw : WorkingSetObject.parse rem with
        | .oob => .oob
        | .fail => .fail objs
        | .ok w rem' =>
          ObjectPool.parseLoop rem' (mapAssign objs w.objectID (PoolObject.ws w))
      else if ty = 1 then
        match hd : DataMaskObject.parse rem with
        | .oob => .oob
        | .fail => .fail objs
        | .ok d rem' =>
          ObjectPool.parseLoop rem' (mapAssign objs d.objectID (PoolObject.dm d))
      else .fail objs
termination_by rem.length
decreasing_by
  · exact ws_parse_ok_length hw
  · exact dm_parse_ok_length hd

/-- Model of `ObjectPool::parse` (cpp lines 593-627).  The external
`IOPFileInterface::hash_object_pool_to_version` collaborator is abstracted
as an arbitrary function `hash` of the whole input; on full success the
version hash of the input is stored. -/
def ObjectPool.parse (hash : List Nat → Nat) (p : ObjectPool)
    (binaryPool : List Nat) : PoolParseResult :=
  match ObjectPool.parseLoop binaryPool p.objects with
  | .oob => .oob
  | .fail objs => .done false { p with objects := objs }
  | .ok objs =>
    .done true { objects := objs, versionHash := some (hash binaryPool) }

/-- Model of `ObjectPool::get_object` (cpp lines 629-639): `find` in the
registry, `nullptr` (here `none`) plus an error log when absent. -/
def ObjectPool.get_object (p : ObjectPool) (objectID : Nat) :
    Option PoolObject :=
  mapFind p.objects objectID

/-- Body of `VTObjectWithChildObjects::change_child_position` (cpp lines
59-70) acting on the child map: when the child is found, assign the new
coordinate pair through the iterator and run the object-changed callbacks
(counted); otherwise log the child-not-found error and change nothing. -/
def change_child_position_map (m : List (Nat × Nat × Nat))
    (child newX newY : Nat) : List (Nat × Nat × Nat) × Nat × List Diag :=
  match mapFind m child with
  | some _ => (mapAssign m child (newX, newY), 1, [])
  | none => (m, 0, [Diag.childNotFound])

/-- Body of `VTObjectWithChildObjects::change_child_location` (cpp lines
72-84): when the child is found, add the deltas to its coordinates
(`std::uint16_t` arithmetic, so modulo 2^16) and run the callbacks;
otherwise log the error and change nothing. -/
def change_child_location_map (m : List (Nat × Nat × Nat))
    (child deltaX deltaY : Nat) : List (Nat × Nat × Nat) × Nat × List Diag :=
  match mapFind m child with
  | some (px, py) =>
    (mapAssign m child ((px + deltaX) % 65536, (py + deltaY) % 65536), 1, [])
  | none => (m, 0, [Diag.childNotFound])

/-- `change_child_position` as dispatched on a WorkingSetObject: the
inherited method touches only the `childObjects` member and the callback
list. -/
def WorkingSetObject.change_child_position (w : WorkingSetObject)
    (child newX newY : Nat) : WorkingSetObject × Nat × List Diag :=
  match change_child_position_map w.childObjects child newX newY with
  | (m', n, ds) => ({ w with childObjects := m' }, n, ds)

/-- `change_child_location` as dispatched on a WorkingSetObject. -/
def WorkingSetObject.change_child_location (w : WorkingSetObject)
    (child deltaX deltaY : Nat) : WorkingSetObject × Nat × List Diag :=
  match change_child_location_map w.childObjects child deltaX deltaY with
  | (m', n, ds) => ({ w with childObjects := m' }, n, ds)

/-- `change_child_position` as dispatched on a DataMaskObject. -/
def DataMaskObject.change_child_position (d : DataMaskObject)
    (child newX newY : Nat) : DataMaskObject × Nat × List Diag :=
  match change_child_position_map d.childObjects child newX newY with
  | (m', n, ds) => ({ d with childObjects := m' }, n, ds)

/-- `change_child_location` as dispatched on a DataMaskObject. -/
def DataMaskObject.change_child_location (d : DataMaskObject)
    (child deltaX deltaY : Nat) : DataMaskObject × Nat × List Diag :=
  match change_child_location_map d.childObjects child deltaX deltaY with
  | (m', n, ds) => ({ d with childObjects := m' }, n, ds)

/-- Modelled from the spec: the `Attribute` value struct is declared in a
header of this repository that is not present under src/ (only its uses
are).  Per spec section 3 it is a tagged union over the wire-representable
primitive kinds; the tags used by the change-attribute code under src/ are
`Uint8`, `Uint16` and `Boolean` (`Uint32` is listed by the spec but unused
here). -/
inductive AttrValue : Type
  | u8 (v : Nat)
  | u16 (v : Nat)
  | u32 (v : Nat)
  | boolean (b : Bool)
deriving Repr, DecidableEq

/-- The kind tag of an attribute value (the `Attribute::Type` the C++ code
compares against). -/
inductive AttrKind : Type
  | u8k
  | u16k
  | u32k
  | boolk
deriving Repr, DecidableEq

/-- Kind tag of a value. -/
def AttrValue.kind : AttrValue → AttrKind
  | .u8 _ => .u8k
  | .u16 _ => .u16k
  | .u32 _ => .u32k
  | .boolean _ => .boolk

/-- Modelled from the spec: an attribute as passed to `change_attribute` —
an attribute ID plus a tagged value. -/
structure Attribute : Type where
  id : Nat
  value : AttrValue
deriving Repr, DecidableEq

/-- Result of a `change_attribute` call: the returned boolean, the
(possibly updated) object state, the number of times
`call_object_changed_callbacks` ran, and the diagnostics logged. -/
structure MutationResult (α : Type) : Type where
  success : Bool
  state : α
  notifications : Nat
  diags : List Diag
deriving Repr, DecidableEq

/-- Model of `WorkingSetObject::change_attribute` (cpp lines 128-133): it
ignores both arguments, logs that working set objects have no mutable
attributes, and returns `false` without touching any field or running any
callback. -/
def WorkingSetObject.change_attribute (w : WorkingSetObject) (_id : Nat)
    (_a : Attribute) : MutationResult WorkingSetObject :=
  { success := false, state := w, notifications := 0,
    diags := [Diag.immutableObject] }

/-- Model of `DataMaskObject::change_attribute` (cpp lines 221-250):
attribute 1 (BackgroundColour) accepts a `Uint8` value, attribute 2
(SoftKeyMask) accepts a `Uint16` value; a value of any other kind for
those IDs logs an invalid-attribute-type error, and any other ID
(including the read-only Type attribute 0) logs attribute-not-found. -/
def DataMaskObject.change_attribute (d : DataMaskObject) (id : Nat)
    (a : Attribute) : MutationResult DataMaskObject :=
  if id = 1 then
    match a.value with
    | .u8 v =>
      { success := true, state := { d with backgroundColour := v },
        notifications := 1, diags := [] }
    | _ =>
      { success := false, state := d, notifications := 0,
        diags := [Diag.invalidAttributeType] }
  else if id = 2 then
    match a.value with
    | .u16 v =>
      { success := true, state := { d with softKeyMask := v },
        notifications := 1, diags := [] }
    | _ =>
      { success := false, state := d, notifications := 0,
        diags := [Diag.invalidAttributeType] }
  else
    { success := false, state := d, notifications := 0,
      diags := [Diag.attributeNotFound] }

/-- Model of `ContainerObject::change_attribute` (cpp lines 425-464):
attribute 1 (Width) and 2 (Height) accept `Uint16`, attribute 3 (Hidden)
accepts `Boolean`; wrong kinds log invalid-attribute-type; any other ID
(including Type 0) returns `false` with no log at all. -/
def ContainerObject.change_attribute (c : ContainerObject) (id : Nat)
    (a : Attribute) : MutationResult ContainerObject :=
  if id = 1 then
    match a.value with
    | .u16 v =>
      { success := true, state := { c with width := v },
        notifications := 1, diags := [] }
    | _ =>
      { success := false, state := c, notifications := 0,
        diags := [Diag.invalidAttributeType] }
  else if id = 2 then
    match a.value with
    | .u16 v =>
      { success := true, state := { c with height := v },
        notifications := 1, diags := [] }
    | _ =>
      { success := false, state := c, notifications := 0,
        diags := [Diag.invalidAttributeType] }
  else if id = 3 then
    match a.value with
    | .boolean b =>
      { success := true, state := { c with hidden := b },
        notifications := 1, diags := [] }
    | _ =>
      { success := false, state := c, notifications := 0,
        diags := [Diag.invalidAttributeType] }
  else
    { success := false, state := c, notifications := 0, diags := [] }

/-- The value kind `DataMaskObject::change_attribute` requires for each
writable attribute ID of its table (`BackgroundColour = 1` is `Uint8`,
`SoftKeyMask = 2` is `Uint16`); `none` for IDs it does not write
(including the read-only `Type = 0`). -/
def dmWritableKind (id : Nat) : Option AttrKind :=
  if id = 1 then some .u8k else if id = 2 then some .u16k else none

/-- The value kind `ContainerObject::change_attribute` requires for each
writable attribute ID (`Width = 1`, `Height = 2` are `Uint16`,
`Hidden = 3` is `Boolean`). -/
def containerWritableKind (id : Nat) : Option AttrKind :=
  if id = 1 then some .u16k
  else if id = 2 then some .u16k
  else if id = 3 then some .boolk
  else none

/-- Little-endian 2-byte encoding of a value, used to build well-formed
wire records for the round-trip theorems. -/
def enc16 (v : Nat) : List Nat := [v % 256, v / 256 % 256]

/-- Wire encoding of one child-object entry: 2-byte ID, 2-byte x, 2-byte
y. -/
def encChildEntry (c : Nat × Nat × Nat) : List Nat :=
  enc16 c.1 ++ enc16 c.2.1 ++ enc16 c.2.2

/-- Wire encoding of a child-object list. -/
def encChildList : List (Nat × Nat × Nat) → List Nat
  | [] => []
  | c :: cs => encChildEntry c ++ encChildList cs

/-- Wire encoding of a list of 2-byte values (macro references or flat
soft-key children). -/
def encU16List : List Nat → List Nat
  | [] => []
  | v :: vs => enc16 v ++ encU16List vs

/-- Wire encoding of a language list: two raw characters per entry. -/
def encLangList : List (Nat × Nat) → List Nat
  | [] => []
  | p :: ps => p.1 % 256 :: p.2 % 256 :: encLangList ps

/-- A well-formed single WorkingSet wire record (ISO 11783-6 layout as
read by `WorkingSetObject::parse`): 2-byte object ID, type byte 0,
background colour, selectable flag, 2-byte active mask, the three count
bytes, then the child, macro and language lists. -/
def encodeWorkingSet (oid bg selb mask : Nat) (cs : List (Nat × Nat × Nat))
    (ms : List Nat) (ls : List (Nat × Nat)) : List Nat :=
  enc16 oid ++ 0 :: bg % 256 :: selb % 256 ::
    (enc16 mask ++ cs.length % 256 :: ms.length % 256 :: ls.length % 256 ::
      (encChildList cs ++ encU16List ms ++ encLangList ls))

/-- The WorkingSetObject state that decoding `encodeWorkingSet` produces:
scalar fields as encoded, and the child entries folded into the
`std::map` with `emplace` (so later duplicates of a child ID are
dropped). -/
def wsDecoded (oid bg selb mask : Nat) (cs : List (Nat × Nat × Nat))
    (ms : List Nat) (ls : List (Nat × Nat)) : WorkingSetObject :=
  { objectID := oid, backgroundColour := bg, selectable := selb != 0,
    activeMask := mask,
    childObjects := cs.foldl (fun m c => mapEmplace m c.1 c.2) [],
    childMacros := ms, childLanguages := ls }

theorem enc16_decode {v : Nat} (h : v < 65536) (t : List Nat) :
    convert_bytes_to (enc16 v ++ t) = some (v, t) := by
  simp only [enc16, List.cons_append, List.nil_append, convert_bytes_to,
    Option.some_inj, Prod.mk.injEq]
  exact ⟨by omega, trivial⟩

theorem encChildList_length (cs : List (Nat × Nat × Nat)) :
    (encChildList cs).length = 6 * cs.length := by
  induction cs with
  | nil => simp [encChildList]
  | cons c cs ih =>
    simp [encChildList, encChildEntry, enc16, ih]
    omega

theorem encU16List_length (vs : List Nat) :
    (encU16List vs).length = 2 * vs.length := by
  induction vs with
  | nil => simp [encU16List]
  | cons v vs ih =>
    simp [encU16List, enc16, ih]
    omega

theorem encLangList_length (ls : List (Nat × Nat)) :
    (encLangList ls).length = 2 * ls.length := by
  induction ls with
  | nil => simp [encLangList]
  | cons p ps ih =>
    simp [encLangList, ih]
    omega

theorem readChildObjects_encode (cs : List (Nat × Nat × Nat))
    (acc : List (Nat × Nat × Nat)) (t : List Nat)
    (h : ∀ c ∈ cs, c.1 < 65536 ∧ c.2.1 < 65536 ∧ c.2.2 < 65536) :
    readChildObjects cs.length (encChildList cs ++ t) acc =
      some (cs.foldl (fun m c => mapEmplace m c.1 c.2) acc, t) := by
  induction cs generalizing acc with
  | nil => simp [encChildList, readChildObjects]
  | cons c cs ih =>
    obtain ⟨h1, h2, h3⟩ := h c (by simp)
    have hrest : ∀ c' ∈ cs, c'.1 < 65536 ∧ c'.2.1 < 65536 ∧ c'.2.2 < 65536 :=
      fun c' hc' => h c' (by simp [hc'])
    simp only [encChildList, encChildEntry, List.length_cons,
      List.append_assoc, readChildObjects, enc16_decode h1, enc16_decode h2,
      enc16_decode h3, List.foldl_cons]
    exact ih _ hrest

theorem readU16List_encode (vs : List Nat) (acc : List Nat) (t : List Nat)
    (h : ∀ v ∈ vs, v < 65536) :
    readU16List vs.length (encU16List vs ++ t) acc = some (acc ++ vs, t) := by
  induction vs generalizing acc with
  | nil => simp [encU16List, readU16List]
  | cons v vs ih =>
    have hv := h v (by simp)
    have hrest : ∀ v' ∈ vs, v' < 65536 := fun v' hv' => h v' (by simp [hv'])
    simp only [encU16List, List.length_cons, List.append_assoc, readU16List,
      enc16_decode hv]
    rw [ih _ hrest]
    simp

theorem readLanguages_encode (ls : List (Nat × Nat))
    (acc : List (Nat × Nat)) (t : List Nat)
    (h : ∀ p ∈ ls, p.1 < 256 ∧ p.2 < 256) :
    readLanguages ls.length (encLangList ls ++ t) acc = some (acc ++ ls, t) := by
  induction ls generalizing acc with
  | nil => simp [encLangList, readLanguages]
  | cons p ps ih =>
    obtain ⟨h1, h2⟩ := h p (by simp)
    have hrest : ∀ p' ∈ ps, p'.1 < 256 ∧ p'.2 < 256 :=
      fun p' hp' => h p' (by simp [hp'])
    simp only [encLangList, List.length_cons, List.cons_append, readLanguages]
    rw [Nat.mod_eq_of_lt h1, Nat.mod_eq_of_lt h2, ih _ hrest]
    simp

/-- Round trip for a single well-formed WorkingSet record: decoding
`encodeWorkingSet` succeeds, consumes exactly the record (leaving the
trailing bytes `t`), and produces `wsDecoded`. -/
theorem WorkingSetObject.parse_encode (oid bg selb mask : Nat)
    (cs : List (Nat × Nat × Nat)) (ms : List Nat) (ls : List (Nat × Nat))
    (t : List Nat)
    (hoid : oid < 65536) (hbg : bg < 256) (hselb : selb < 256)
    (hmask : mask < 65536) (hcs : cs.length < 256) (hms : ms.length < 256)
    (hls : ls.length < 256)
    (hc : ∀ c ∈ cs, c.1 < 65536 ∧ c.2.1 < 65536 ∧ c.2.2 < 65536)
    (hm : ∀ v ∈ ms, v < 65536)
    (hl : ∀ p ∈ ls, p.1 < 256 ∧ p.2 < 256) :
    WorkingSetObject.parse (encodeWorkingSet oid bg selb mask cs ms ls ++ t) =
      PResult.ok (wsDecoded oid bg selb mask cs ms ls) t := by
  have hdr : wsReadHeader (encodeWorkingSet oid bg selb mask cs ms ls ++ t) =
      some (oid, bg, selb, mask, cs.length, ms.length, ls.length,
        encChildList cs ++ (encU16List ms ++ (encLangList ls ++ t))) := by
    simp only [encodeWorkingSet, enc16, List.cons_append, List.nil_append,
      List.append_assoc]
    simp [wsReadHeader, convert_bytes_to, read_u8,
      Nat.mod_eq_of_lt hbg, Nat.mod_eq_of_lt hselb, Nat.mod_eq_of_lt hcs,
      Nat.mod_eq_of_lt hms, Nat.mod_eq_of_lt hls]
    omega
  have hlen : ¬ ((encChildList cs ++ (encU16List ms ++ (encLangList ls ++ t))).length
      < cs.length * 6 + ms.length * 2 + ls.length * 2) := by
    simp [encChildList_length, encU16List_length, encLangList_length]
    omega
  simp [WorkingSetObject.parse, hdr, hlen, wsDecoded,
    readChildObjects_encode cs [] (encU16List ms ++ (encLangList ls ++ t)) hc,
    readU16List_encode ms [] (encLangList ls ++ t) hm,
    readLanguages_encode ls [] t hl]
  simp [encChildList_length, encU16List_length, encLangList_length]
  omega

theorem parseLoop_nil (objs : List (Nat × PoolObject)) :
    ObjectPool.parseLoop [] objs = LoopResult.ok objs := by
  simp [ObjectPool.parseLoop]


theorem parseLoop_ws_step (oid bg selb mask : Nat)
    (cs : List (Nat × Nat × Nat)) (ms : List Nat) (ls : List (Nat × Nat))
    (rest : List Nat) (objs : List (Nat × PoolObject))
    (hoid : oid < 65536) (hbg : bg < 256) (hselb : selb < 256)
    (hmask : mask < 65536) (hcs : cs.length < 256) (hms : ms.length < 256)
    (hls : ls.length < 256)
    (hc : ∀ c ∈ cs, c.1 < 65536 ∧ c.2.1 < 65536 ∧ c.2.2 < 65536)
    (hm : ∀ v ∈ ms, v < 65536)
    (hl : ∀ p ∈ ls, p.1 < 256 ∧ p.2 < 256) :
    ObjectPool.parseLoop (encodeWorkingSet oid bg selb mask cs ms ls ++ rest)
        objs =
      ObjectPool.parseLoop rest
        (mapAssign objs oid
          (PoolObject.ws (wsDecoded oid bg selb mask cs ms ls))) := by
  have hp := WorkingSetObject.parse_encode oid bg selb mask cs ms ls rest
    hoid hbg hselb hmask hcs hms hls hc hm hl
  have hne : (encodeWorkingSet oid bg selb mask cs ms ls ++ rest).isEmpty
      = false := by
    simp [encodeWorkingSet, enc16]
  have hidx : (encodeWorkingSet oid bg selb mask cs ms ls ++ rest)[2]?
      = some 0 := by
    simp [encodeWorkingSet, enc16]
  rw [ObjectPool.parseLoop, hne, hidx]
  simp only [Bool.false_eq_true, if_false]
  rw [if_pos trivial]
  split
  next h => rw [hp] at h; exact PResult.noConfusion h
  next h => rw [hp] at h; exact PResult.noConfusion h
  next w rem' h =>
    rw [hp] at h
    obtain ⟨hw, hr⟩ := (PResult.ok.injEq _ _ _ _).mp h
    subst hw
    subst hr
    rfl

/-- The `default` branch of the `ObjectPool::parse` dispatch: any type
byte other than WorkingSet (0) and DataMask (1) logs the
invalid-or-unsupported-element error and makes `parse` return `false`,
keeping the registry as mutated so far. -/
theorem parseLoop_unsupported (rem : List Nat)
    (objs : List (Nat × PoolObject)) (ty : Nat)
    (hidx : rem[2]? = some ty) (h0 : ty ≠ 0) (h1 : ty ≠ 1) :
    ObjectPool.parseLoop rem objs = LoopResult.fail objs := by
  have hne : rem.isEmpty = false := by
    cases rem with
    | nil => simp at hidx
    | cons a l => simp
  rw [ObjectPool.parseLoop, hne, hidx]
  simp only [Bool.false_eq_true, if_false]
  rw [if_neg h0, if_neg h1]

/-- C1: the claimed truncation safety does not hold of the code.  On the
valid WorkingSet test record truncated after 6 bytes (one byte into the
2-byte active-mask field), `convert_bytes_to` returns the partial value
0x00E8 as if it were a complete read instead of failing, and
`WorkingSetObject::parse` then dereferences the iterator out of bounds
(undefined behaviour) while reading the count bytes — it neither fails
with a truncation error nor stays inside the buffer. -/
theorem c1_truncation_unsafe :
    convert_bytes_to [0xE8] = some (0xE8, []) ∧
    WorkingSetObject.parse [0xCD, 0xAB, 0x00, 0x02, 0x01, 0xE8] =
      PResult.oob :=
  ⟨rfl, rfl⟩

/-- C5 counterexample: decoding the 20-byte fixture does not give one
child `(id 0x0001, x 0x2AF8, y 0)` and one language; byte 9 is the
language count 2, the single child record starts at byte 10 (so the child
ID is 0x2AF8 with x = y = 0), and two language entries follow
(0x65 0x6E = en, 0x64 0x65 = de). -/
theorem c5_counterexample :
    WorkingSetObject.parse
        [0xCD, 0xAB, 0x00, 0x02, 0x01, 0xE8, 0x03, 0x01, 0x00, 0x02,
         0xF8, 0x2A, 0x00, 0x00, 0x00, 0x00, 0x65, 0x6E, 0x64, 0x65] =
      PResult.ok
        { objectID := 0xABCD, backgroundColour := 0x02, selectable := true,
          activeMask := 0x03E8, childObjects := [(0x2AF8, 0, 0)],
          childMacros := [],
          childLanguages := [(0x65, 0x6E), (0x64, 0x65)] } [] ∧
    ([((0x2AF8 : Nat), ((0 : Nat), (0 : Nat)))] ≠ [(1, (0x2AF8, 0))]) ∧
    ([((0x65 : Nat), (0x6E : Nat)), (0x64, 0x65)].length ≠ 1) :=
  ⟨rfl, by decide, by decide⟩

/-- C5 amended: the fixture bytes decode to a WorkingSetObject with id
0xABCD, background colour 2, selectable true, active mask 0x03E8, exactly
one child with id 0x2AF8 at (0, 0), zero macros, and two two-character
languages, en then de, consuming the whole 20-byte record. -/
theorem c5_amended_decode :
    WorkingSetObject.parse
        [0xCD, 0xAB, 0x00, 0x02, 0x01, 0xE8, 0x03, 0x01, 0x00, 0x02,
         0xF8, 0x2A, 0x00, 0x00, 0x00, 0x00, 0x65, 0x6E, 0x64, 0x65] =
      PResult.ok
        { objectID := 0xABCD, backgroundColour := 0x02, selectable := true,
          activeMask := 0x03E8, childObjects := [(0x2AF8, 0, 0)],
          childMacros := [],
          childLanguages := [(0x65, 0x6E), (0x64, 0x65)] } [] :=
  rfl

/-- C6: on a syntactically well-formed SoftKeyMask record (id 0x0001,
type 4, background colour 5, zero children, zero macros) the decoder
consumes the whole record, assigns every field — and still returns
`false` (cpp line 590), contradicting the success-means-success claim. -/
theorem c6_softkeymask_returns_false :
    SoftKeyMaskObject.parse [0x01, 0x00, 0x04, 0x05, 0x00, 0x00] =
      SkmResult.done false
        { objectID := 1, backgroundColour := 5, childObjects := [],
          childMacros := [] } [] :=
  rfl

/-- C7: `WorkingSetObject::change_attribute` always fails as immutable:
for every object state, attribute ID and attribute value it returns
`false`, logs the immutable-object error, leaves every field unchanged
and runs no observer callback. -/
theorem c7_workingset_change_attribute_immutable
    (w : WorkingSetObject) (id : Nat) (a : Attribute) :
    WorkingSetObject.change_attribute w id a =
      { success := false, state := w, notifications := 0,
        diags := [Diag.immutableObject] } :=
  rfl

/-- C9: when the given child ID is not among an object's children,
`change_child_position` and `change_child_location` (shown here as
dispatched on the WorkingSet and DataMask variants) leave the child map
and every other field of the object unchanged, run no observer callback,
and report the failure only through the child-not-found diagnostic. -/
theorem c9_change_child_absent_noop (w : WorkingSetObject)
    (d : DataMaskObject) (child newX newY deltaX deltaY : Nat)
    (hw : mapFind w.childObjects child = none)
    (hd : mapFind d.childObjects child = none) :
    WorkingSetObject.change_child_position w child newX newY =
      (w, 0, [Diag.childNotFound]) ∧
    WorkingSetObject.change_child_location w child deltaX deltaY =
      (w, 0, [Diag.childNotFound]) ∧
    DataMaskObject.change_child_position d child newX newY =
      (d, 0, [Diag.childNotFound]) ∧
    DataMaskObject.change_child_location d child deltaX deltaY =
      (d, 0, [Diag.childNotFound]) := by
  refine ⟨?_, ?_, ?_, ?_⟩ <;>
    simp [WorkingSetObject.change_child_position,
      WorkingSetObject.change_child_location,
      DataMaskObject.change_child_position,
      DataMaskObject.change_child_location,
      change_child_position_map, change_child_location_map, hw, hd]

/-- Witness for C9 at a concrete WorkingSet and DataMask with empty child
maps and child ID 5. -/
theorem c9_change_child_absent_noop_witness :
    WorkingSetObject.change_child_position
        { objectID := 1, backgroundColour := 0, selectable := false,
          activeMask := 0, childObjects := [], childMacros := [],
          childLanguages := [] } 5 10 11 =
      ({ objectID := 1, backgroundColour := 0, selectable := false,
         activeMask := 0, childObjects := [], childMacros := [],
         childLanguages := [] }, 0, [Diag.childNotFound]) ∧
    WorkingSetObject.change_child_location
        { objectID := 1, backgroundColour := 0, selectable := false,
          activeMask := 0, childObjects := [], childMacros := [],
          childLanguages := [] } 5 12 13 =
      ({ objectID := 1, backgroundColour := 0, selectable := false,
         activeMask := 0, childObjects := [], childMacros := [],
         childLanguages := [] }, 0, [Diag.childNotFound]) ∧
    DataMaskObject.change_child_position
        { objectID := 2, backgroundColour := 0, softKeyMask := 0,
          childObjects := [], childMacros := [] } 5 10 11 =
      ({ objectID := 2, backgroundColour := 0, softKeyMask := 0,
         childObjects := [], childMacros := [] }, 0, [Diag.childNotFound]) ∧
    DataMaskObject.change_child_location
        { objectID := 2, backgroundColour := 0, softKeyMask := 0,
          childObjects := [], childMacros := [] } 5 12 13 =
      ({ objectID := 2, backgroundColour := 0, softKeyMask := 0,
         childObjects := [], childMacros := [] }, 0, [Diag.childNotFound]) :=
  c9_change_child_absent_noop
    { objectID := 1, backgroundColour := 0, selectable := false,
      activeMask := 0, childObjects := [], childMacros := [],
      childLanguages := [] }
    { objectID := 2, backgroundColour := 0, softKeyMask := 0,
      childObjects := [], childMacros := [] } 5 10 11 12 13 rfl rfl

/-- C10: parsing an empty byte vector succeeds, leaves the registry empty
(so `get_object` is `none` for every ID), and stores the version tag
computed from the empty input. -/
theorem c10_empty_pool_parse (hash : List Nat → Nat) :
    ObjectPool.parse hash { objects := [], versionHash := none } [] =
      PoolParseResult.done true
        { objects := [], versionHash := some (hash []) } ∧
    ∀ oid : Nat,
      ObjectPool.get_object { objects := [], versionHash := some (hash []) }
        oid = none := by
  constructor
  · unfold ObjectPool.parse
    rw [parseLoop_nil]
  · intro oid
    rfl

/-- C4 counterexample: a well-formed WorkingSet record with two children
that share ID 1 (N = 2, M = 0, L = 0) is 22 bytes long and is consumed
completely, i.e. 19 = 7 + 6N bytes past the 3-byte header — not the
claimed 9 + 6N + 2M + 2L = 21 (total 24); and the decoded child container
holds a single entry (the `std::map` `emplace` dropped the duplicate)
instead of the two wire entries in wire order. -/
theorem c4_counterexample :
    WorkingSetObject.parse
        [0xCD, 0xAB, 0x00, 0x02, 0x01, 0xE8, 0x03, 0x02, 0x00, 0x00,
         0x01, 0x00, 0x0A, 0x00, 0x0B, 0x00, 0x01, 0x00, 0x0C, 0x00,
         0x0D, 0x00] =
      PResult.ok
        { objectID := 0xABCD, backgroundColour := 0x02, selectable := true,
          activeMask := 0x03E8, childObjects := [(1, 10, 11)],
          childMacros := [], childLanguages := [] } [] ∧
    ([0xCD, 0xAB, 0x00, 0x02, 0x01, 0xE8, 0x03, 0x02, 0x00, 0x00,
      0x01, 0x00, 0x0A, 0x00, 0x0B, 0x00, 0x01, 0x00, 0x0C, 0x00,
      0x0D, 0x00] : List Nat).length = 22 ∧
    ((22 : Nat) ≠ 3 + (9 + 6 * 2 + 2 * 0 + 2 * 0)) ∧
    ([((1 : Nat), ((10 : Nat), (11 : Nat)))].length ≠ 2) :=
  ⟨rfl, rfl, by decide, by decide⟩

/-- C4 amended: decoding a well-formed single WorkingSet record with N
children, M macros and L languages consumes exactly 7 + 6N + 2M + 2L
bytes past the 3-byte header (the whole 10 + 6N + 2M + 2L byte record);
the scalar fields, macros and languages are reproduced exactly, but the
children are collected into a `std::map` keyed by child ID via `emplace`
— iteration order is by ID and a duplicated child ID keeps only its first
wire occurrence, not the positional wire list. -/
theorem c4_amended_roundtrip (oid bg selb mask : Nat)
    (cs : List (Nat × Nat × Nat)) (ms : List Nat) (ls : List (Nat × Nat))
    (hoid : oid < 65536) (hbg : bg < 256) (hselb : selb < 256)
    (hmask : mask < 65536) (hcs : cs.length < 256) (hms : ms.length < 256)
    (hls : ls.length < 256)
    (hc : ∀ c ∈ cs, c.1 < 65536 ∧ c.2.1 < 65536 ∧ c.2.2 < 65536)
    (hm : ∀ v ∈ ms, v < 65536)
    (hl : ∀ p ∈ ls, p.1 < 256 ∧ p.2 < 256) :
    WorkingSetObject.parse (encodeWorkingSet oid bg selb mask cs ms ls) =
      PResult.ok (wsDecoded oid bg selb mask cs ms ls) [] ∧
    (encodeWorkingSet oid bg selb mask cs ms ls).length =
      3 + (7 + 6 * cs.length + 2 * ms.length + 2 * ls.length) ∧
    (wsDecoded oid bg selb mask cs ms ls).childObjects =
      cs.foldl (fun m c => mapEmplace m c.1 c.2) [] := by
  refine ⟨?_, ?_, rfl⟩
  · have h := WorkingSetObject.parse_encode oid bg selb mask cs ms ls []
      hoid hbg hselb hmask hcs hms hls hc hm hl
    rwa [List.append_nil] at h
  · simp [encodeWorkingSet, enc16, encChildList_length, encU16List_length,
      encLangList_length]
    omega

/-- Witness for C4 at a concrete record with two children sharing ID 1,
one macro and one language. -/
theorem c4_amended_roundtrip_witness :
    WorkingSetObject.parse
        (encodeWorkingSet 0xABCD 2 1 0x03E8 [(1, 10, 11), (1, 12, 13)] [7]
          [(0x65, 0x6E)]) =
      PResult.ok
        (wsDecoded 0xABCD 2 1 0x03E8 [(1, 10, 11), (1, 12, 13)] [7]
          [(0x65, 0x6E)]) [] ∧
    (encodeWorkingSet 0xABCD 2 1 0x03E8 [(1, 10, 11), (1, 12, 13)] [7]
      [(0x65, 0x6E)]).length = 3 + (7 + 6 * 2 + 2 * 1 + 2 * 1) ∧
    (wsDecoded 0xABCD 2 1 0x03E8 [(1, 10, 11), (1, 12, 13)] [7]
      [(0x65, 0x6E)]).childObjects =
      [(1, 10, 11), (1, 12, 13)].foldl (fun m c => mapEmplace m c.1 c.2) [] :=
  c4_amended_roundtrip 0xABCD 2 1 0x03E8 [(1, 10, 11), (1, 12, 13)] [7]
    [(0x65, 0x6E)] (by decide) (by decide) (by decide) (by decide)
    (by decide) (by decide) (by decide) (by decide) (by decide) (by decide)

/-- C8 counterexample: attribute ID 0 (Type) is in DataMask's declared
attribute table and its declared kind is Uint8; calling
`change_attribute` with a Uint16 value for it fails with the
attribute-not-found diagnostic, not the claimed TypeMismatch (the object
is still unchanged and no observer runs). -/
theorem c8_counterexample :
    DataMaskObject.change_attribute
        { objectID := 1, backgroundColour := 2, softKeyMask := 3,
          childObjects := [], childMacros := [] } 0
        { id := 0, value := AttrValue.u16 5 } =
      { success := false,
        state := { objectID := 1, backgroundColour := 2, softKeyMask := 3,
                   childObjects := [], childMacros := [] },
        notifications := 0, diags := [Diag.attributeNotFound] } ∧
    Diag.attributeNotFound ≠ Diag.invalidAttributeType :=
  ⟨rfl, by decide⟩

/-- C8 amended: for every writable attribute ID of the DataMask table
(BackgroundColour, SoftKeyMask) and of the Container table (Width,
Height, Hidden), a value whose kind differs from the kind that attribute
requires makes `change_attribute` return `false` with the
invalid-attribute-type diagnostic, leave the object unchanged and run no
observer; the read-only Type attribute (ID 0) instead fails with
attribute-not-found (DataMask) or silently (Container). -/
theorem c8_amended_type_mismatch (a : Attribute) :
    (∀ (d : DataMaskObject) (id : Nat) (k : AttrKind),
      dmWritableKind id = some k → AttrValue.kind a.value ≠ k →
      DataMaskObject.change_attribute d id a =
        { success := false, state := d, notifications := 0,
          diags := [Diag.invalidAttributeType] }) ∧
    (∀ (c : ContainerObject) (id : Nat) (k : AttrKind),
      containerWritableKind id = some k → AttrValue.kind a.value ≠ k →
      ContainerObject.change_attribute c id a =
        { success := false, state := c, notifications := 0,
          diags := [Diag.invalidAttributeType] }) := by
  constructor
  · intro d id k hk hne
    unfold dmWritableKind at hk
    split_ifs at hk with h1 h2
    · obtain rfl : k = AttrKind.u8k := (Option.some_inj.mp hk).symm
      subst h1
      cases ha : a.value with
      | u8 v => exact absurd (by simp [ha, AttrValue.kind]) hne
      | u16 v => simp [DataMaskObject.change_attribute, ha]
      | u32 v => simp [DataMaskObject.change_attribute, ha]
      | boolean b => simp [DataMaskObject.change_attribute, ha]
    · obtain rfl : k = AttrKind.u16k := (Option.some_inj.mp hk).symm
      subst h2
      cases ha : a.value with
      | u16 v => exact absurd (by simp [ha, AttrValue.kind]) hne
      | u8 v => simp [DataMaskObject.change_attribute, ha, h1]
      | u32 v => simp [DataMaskObject.change_attribute, ha, h1]
      | boolean b => simp [DataMaskObject.change_attribute, ha, h1]
  · intro c id k hk hne
    unfold containerWritableKind at hk
    split_ifs at hk with h1 h2 h3
    · obtain rfl : k = AttrKind.u16k := (Option.some_inj.mp hk).symm
      subst h1
      cases ha : a.value with
      | u16 v => exact absurd (by simp [ha, AttrValue.kind]) hne
      | u8 v => simp [ContainerObject.change_attribute, ha]
      | u32 v => simp [ContainerObject.change_attribute, ha]
      | boolean b => simp [ContainerObject.change_attribute, ha]
    · obtain rfl : k = AttrKind.u16k := (Option.some_inj.mp hk).symm
      subst h2
      cases ha : a.value with
      | u16 v => exact absurd (by simp [ha, AttrValue.kind]) hne
      | u8 v => simp [ContainerObject.change_attribute, ha, h1]
      | u32 v => simp [ContainerObject.change_attribute, ha, h1]
      | boolean b => simp [ContainerObject.change_attribute, ha, h1]
    · obtain rfl : k = AttrKind.boolk := (Option.some_inj.mp hk).symm
      subst h3
      cases ha : a.value with
      | boolean b => exact absurd (by simp [ha, AttrValue.kind]) hne
      | u8 v => simp [ContainerObject.change_attribute, ha, h1, h2]
      | u16 v => simp [ContainerObject.change_attribute, ha, h1, h2]
      | u32 v => simp [ContainerObject.change_attribute, ha, h1, h2]

/-- Witness for C8: a Uint16 value offered for DataMask attribute 1
(BackgroundColour, which requires Uint8). -/
theorem c8_amended_type_mismatch_witness :
    DataMaskObject.change_attribute
        { objectID := 1, backgroundColour := 2, softKeyMask := 3,
          childObjects := [], childMacros := [] } 1
        { id := 1, value := AttrValue.u16 9 } =
      { success := false,
        state := { objectID := 1, backgroundColour := 2, softKeyMask := 3,
                   childObjects := [], childMacros := [] },
        notifications := 0, diags := [Diag.invalidAttributeType] } :=
  (c8_amended_type_mismatch { id := 1, value := AttrValue.u16 9 }).1
    { objectID := 1, backgroundColour := 2, softKeyMask := 3,
      childObjects := [], childMacros := [] } 1 AttrKind.u8k rfl (by decide)

/-- C2 counterexample: a stream of two WorkingSet records that both carry
ObjectID 0xABCD (the second with background colour 7) makes
`ObjectPool::parse` return `true` — no DuplicateObjectId failure — and
the registry ends up holding the second record's object: the first was
silently overwritten by `objects[id] = ...`. -/
theorem c2_counterexample :
    ObjectPool.parse (fun _ => 0) { objects := [], versionHash := none }
        [0xCD, 0xAB, 0x00, 0x02, 0x01, 0xE8, 0x03, 0x00, 0x00, 0x00,
         0xCD, 0xAB, 0x00, 0x07, 0x01, 0xE8, 0x03, 0x00, 0x00, 0x00] =
      PoolParseResult.done true
        { objects := [(0xABCD, PoolObject.ws
            { objectID := 0xABCD, backgroundColour := 7, selectable := true,
              activeMask := 0x03E8, childObjects := [], childMacros := [],
              childLanguages := [] })],
          versionHash := some 0 } := by
  have e : ([0xCD, 0xAB, 0x00, 0x02, 0x01, 0xE8, 0x03, 0x00, 0x00, 0x00,
      0xCD, 0xAB, 0x00, 0x07, 0x01, 0xE8, 0x03, 0x00, 0x00, 0x00] :
        List Nat) =
      encodeWorkingSet 0xABCD 2 1 0x03E8 [] [] [] ++
        (encodeWorkingSet 0xABCD 7 1 0x03E8 [] [] [] ++ []) := rfl
  rw [e]
  unfold ObjectPool.parse
  rw [parseLoop_ws_step 0xABCD 2 1 0x03E8 [] [] [] _ _ (by decide) (by decide)
      (by decide) (by decide) (by decide) (by decide) (by decide) (by simp)
      (by simp) (by simp),
    parseLoop_ws_step 0xABCD 7 1 0x03E8 [] [] [] _ _ (by decide) (by decide)
      (by decide) (by decide) (by decide) (by decide) (by decide) (by simp)
      (by simp) (by simp),
    parseLoop_nil]
  rfl

/-- C2 amended: `ObjectPool::parse` performs no duplicate detection.  For
any two well-formed WorkingSet records carrying the same ObjectID, the
parse of their concatenation succeeds (returns `true`) and the registry
maps that ID to the object decoded from the second record — the second
record silently overwrites the first via `objects[id] = ...`, and
`get_object` afterwards returns the second object. -/
theorem c2_amended_duplicate_overwrites (hash : List Nat → Nat)
    (oid bg1 selb1 mask1 bg2 selb2 mask2 : Nat)
    (cs1 cs2 : List (Nat × Nat × Nat)) (ms1 ms2 : List Nat)
    (ls1 ls2 : List (Nat × Nat))
    (hoid : oid < 65536)
    (hbg1 : bg1 < 256) (hselb1 : selb1 < 256) (hmask1 : mask1 < 65536)
    (hcs1 : cs1.length < 256) (hms1 : ms1.length < 256)
    (hls1 : ls1.length < 256)
    (hc1 : ∀ c ∈ cs1, c.1 < 65536 ∧ c.2.1 < 65536 ∧ c.2.2 < 65536)
    (hm1 : ∀ v ∈ ms1, v < 65536) (hl1 : ∀ p ∈ ls1, p.1 < 256 ∧ p.2 < 256)
    (hbg2 : bg2 < 256) (hselb2 : selb2 < 256) (hmask2 : mask2 < 65536)
    (hcs2 : cs2.length < 256) (hms2 : ms2.length < 256)
    (hls2 : ls2.length < 256)
    (hc2 : ∀ c ∈ cs2, c.1 < 65536 ∧ c.2.1 < 65536 ∧ c.2.2 < 65536)
    (hm2 : ∀ v ∈ ms2, v < 65536) (hl2 : ∀ p ∈ ls2, p.1 < 256 ∧ p.2 < 256) :
    ObjectPool.parse hash { objects := [], versionHash := none }
        (encodeWorkingSet oid bg1 selb1 mask1 cs1 ms1 ls1 ++
          encodeWorkingSet oid bg2 selb2 mask2 cs2 ms2 ls2) =
      PoolParseResult.done true
        { objects := [(oid, PoolObject.ws
            (wsDecoded oid bg2 selb2 mask2 cs2 ms2 ls2))],
          versionHash := some (hash
            (encodeWorkingSet oid bg1 selb1 mask1 cs1 ms1 ls1 ++
              encodeWorkingSet oid bg2 selb2 mask2 cs2 ms2 ls2)) } ∧
    ObjectPool.get_object
        { objects := [(oid, PoolObject.ws
            (wsDecoded oid bg2 selb2 mask2 cs2 ms2 ls2))],
          versionHash := some (hash
            (encodeWorkingSet oid bg1 selb1 mask1 cs1 ms1 ls1 ++
              encodeWorkingSet oid bg2 selb2 mask2 cs2 ms2 ls2)) } oid =
      some (PoolObject.ws (wsDecoded oid bg2 selb2 mask2 cs2 ms2 ls2)) := by
  constructor
  · unfold ObjectPool.parse
    have hloop : ObjectPool.parseLoop
        (encodeWorkingSet oid bg1 selb1 mask1 cs1 ms1 ls1 ++
          encodeWorkingSet oid bg2 selb2 mask2 cs2 ms2 ls2) [] =
        LoopResult.ok [(oid, PoolObject.ws
          (wsDecoded oid bg2 selb2 mask2 cs2 ms2 ls2))] := by
      rw [show encodeWorkingSet oid bg1 selb1 mask1 cs1 ms1 ls1 ++
            encodeWorkingSet oid bg2 selb2 mask2 cs2 ms2 ls2 =
          encodeWorkingSet oid bg1 selb1 mask1 cs1 ms1 ls1 ++
            (encodeWorkingSet oid bg2 selb2 mask2 cs2 ms2 ls2 ++ []) by simp]
      rw [parseLoop_ws_step oid bg1 selb1 mask1 cs1 ms1 ls1 _ _ hoid hbg1
          hselb1 hmask1 hcs1 hms1 hls1 hc1 hm1 hl1,
        parseLoop_ws_step oid bg2 selb2 mask2 cs2 ms2 ls2 _ _ hoid hbg2
          hselb2 hmask2 hcs2 hms2 hls2 hc2 hm2 hl2,
        parseLoop_nil]
      simp [mapAssign]
    rw [hloop]
  · simp [ObjectPool.get_object, mapFind]

/-- Witness for C2 at two concrete minimal records with ID 0xABCD
(background colours 2 and 7) and the trivial hash. -/
theorem c2_amended_duplicate_overwrites_witness :
    ObjectPool.parse (fun _ => 0) { objects := [], versionHash := none }
        (encodeWorkingSet 0xABCD 2 1 0x03E8 [] [] [] ++
          encodeWorkingSet 0xABCD 7 1 0x03E8 [] [] []) =
      PoolParseResult.done true
        { objects := [(0xABCD, PoolObject.ws
            (wsDecoded 0xABCD 7 1 0x03E8 [] [] []))],
          versionHash := some ((fun _ => 0)
            (encodeWorkingSet 0xABCD 2 1 0x03E8 [] [] [] ++
              encodeWorkingSet 0xABCD 7 1 0x03E8 [] [] [])) } ∧
    ObjectPool.get_object
        { objects := [(0xABCD, PoolObject.ws
            (wsDecoded 0xABCD 7 1 0x03E8 [] [] []))],
          versionHash := some ((fun _ => 0)
            (encodeWorkingSet 0xABCD 2 1 0x03E8 [] [] [] ++
              encodeWorkingSet 0xABCD 7 1 0x03E8 [] [] [])) } 0xABCD =
      some (PoolObject.ws (wsDecoded 0xABCD 7 1 0x03E8 [] [] [])) :=
  c2_amended_duplicate_overwrites (fun _ => 0) 0xABCD 2 1 0x03E8 7 1 0x03E8
    [] [] [] [] [] [] (by decide) (by decide) (by decide) (by decide)
    (by decide) (by decide) (by decide) (by simp) (by simp) (by simp)
    (by decide) (by decide) (by decide) (by decide) (by decide) (by decide)
    (by simp) (by simp) (by simp)

/-- C3 counterexample: a valid WorkingSet record (ID 0xABCD) followed by
a record of unsupported type 5 makes `ObjectPool::parse` return `false`,
yet `get_object 0xABCD` on the resulting pool returns the object decoded
before the error — the registry is not rolled back, so the claim that
`get` is `None` for every ID after a failed parse is false. -/
theorem c3_counterexample :
    ObjectPool.parse (fun _ => 0) { objects := [], versionHash := none }
        [0xCD, 0xAB, 0x00, 0x02, 0x01, 0xE8, 0x03, 0x00, 0x00, 0x00,
         0x00, 0x00, 0x05] =
      PoolParseResult.done false
        { objects := [(0xABCD, PoolObject.ws
            { objectID := 0xABCD, backgroundColour := 2, selectable := true,
              activeMask := 0x03E8, childObjects := [], childMacros := [],
              childLanguages := [] })],
          versionHash := none } ∧
    ObjectPool.get_object
        { objects := [(0xABCD, PoolObject.ws
            { objectID := 0xABCD, backgroundColour := 2, selectable := true,
              activeMask := 0x03E8, childObjects := [], childMacros := [],
              childLanguages := [] })],
          versionHash := none } 0xABCD =
      some (PoolObject.ws
        { objectID := 0xABCD, backgroundColour := 2, selectable := true,
          activeMask := 0x03E8, childObjects := [], childMacros := [],
          childLanguages := [] }) := by
  constructor
  · have e : ([0xCD, 0xAB, 0x00, 0x02, 0x01, 0xE8, 0x03, 0x00, 0x00, 0x00,
        0x00, 0x00, 0x05] : List Nat) =
        encodeWorkingSet 0xABCD 2 1 0x03E8 [] [] [] ++ [0x00, 0x00, 0x05] :=
      rfl
    rw [e]
    unfold ObjectPool.parse
    rw [parseLoop_ws_step 0xABCD 2 1 0x03E8 [] [] [] _ _ (by decide)
        (by decide) (by decide) (by decide) (by decide) (by decide)
        (by decide) (by simp) (by simp) (by simp),
      parseLoop_unsupported [0x00, 0x00, 0x05] _ 5 rfl (by decide)
        (by decide)]
    rfl
  · rfl

/-- C3 amended: every decode-time error does abort the whole pool parse
with `false` (the pool is never exposed as successfully parsed, and no
version tag is stored), but the registry member is not rolled back:
objects decoded before the error remain, and `get_object` returns them
rather than `none`. -/
theorem c3_amended_no_rollback (hash : List Nat → Nat)
    (oid bg selb mask : Nat) (cs : List (Nat × Nat × Nat)) (ms : List Nat)
    (ls : List (Nat × Nat)) (bad : List Nat) (ty : Nat)
    (hoid : oid < 65536) (hbg : bg < 256) (hselb : selb < 256)
    (hmask : mask < 65536) (hcs : cs.length < 256) (hms : ms.length < 256)
    (hls : ls.length < 256)
    (hc : ∀ c ∈ cs, c.1 < 65536 ∧ c.2.1 < 65536 ∧ c.2.2 < 65536)
    (hm : ∀ v ∈ ms, v < 65536) (hl : ∀ p ∈ ls, p.1 < 256 ∧ p.2 < 256)
    (hidx : bad[2]? = some ty) (h0 : ty ≠ 0) (h1 : ty ≠ 1) :
    ObjectPool.parse hash { objects := [], versionHash := none }
        (encodeWorkingSet oid bg selb mask cs ms ls ++ bad) =
      PoolParseResult.done false
        { objects := [(oid, PoolObject.ws (wsDecoded oid bg selb mask cs ms ls))],
          versionHash := none } ∧
    ObjectPool.get_object
        { objects := [(oid, PoolObject.ws (wsDecoded oid bg selb mask cs ms ls))],
          versionHash := none } oid =
      some (PoolObject.ws (wsDecoded oid bg selb mask cs ms ls)) := by
  constructor
  · unfold ObjectPool.parse
    rw [parseLoop_ws_step oid bg selb mask cs ms ls _ _ hoid hbg hselb hmask
        hcs hms hls hc hm hl,
      parseLoop_unsupported bad _ ty hidx h0 h1]
    rfl
  · simp [ObjectPool.get_object, mapFind]

/-- Witness for C3: a concrete minimal WorkingSet record followed by a
3-byte record whose type byte is 5 (Key, unsupported by the dispatch). -/
theorem c3_amended_no_rollback_witness :
    ObjectPool.parse (fun _ => 0) { objects := [], versionHash := none }
        (encodeWorkingSet 0xABCD 2 1 0x03E8 [] [] [] ++ [0x00, 0x00, 0x05]) =
      PoolParseResult.done false
        { objects := [(0xABCD, PoolObject.ws
            (wsDecoded 0xABCD 2 1 0x03E8 [] [] []))],
          versionHash := none } ∧
    ObjectPool.get_object
        { objects := [(0xABCD, PoolObject.ws
            (wsDecoded 0xABCD 2 1 0x03E8 [] [] []))],
          versionHash := none } 0xABCD =
      some (PoolObject.ws (wsDecoded 0xABCD 2 1 0x03E8 [] [] [])) :=
  c3_amended_no_rollback (fun _ => 0) 0xABCD 2 1 0x03E8 [] [] []
    [0x00, 0x00, 0x05] 5 (by decide) (by decide) (by decide) (by decide)
    (by decide) (by decide) (by decide) (by simp) (by simp) (by simp) rfl
    (by decide) (by decide)
